import Mathlib

/-!
Shallow embedding of `ch341/ch341.py` (pych341): a Python wrapper around the
CH341 USB bridge DLL.  The DLL (`ch341dll`) is modelled as an oracle
environment `Ch341Env`; every method of the `Ch341` class becomes a function
from the environment and the handle state to a result record carrying

  * the Python return value (or the raised exception) as an `Except`,
  * the handle state after the call (Python mutates `self` before raising,
    so the state at the raise point is recorded faithfully), and
  * the ordered list of DLL (transport) calls the method issued.

Buffers (`bytearray`s) are lists of byte values; methods that mutate a
caller-supplied buffer in place return the buffer's final contents
explicitly.  Machine-width truncation (`c_uint8`) is `% 256`.
-/

/-- Errors a method can raise.  The Python code raises `CH341Error` with a
message, or builtin `ValueError`/`TypeError`; each raise site gets one
constructor. -/
inductive CH341Error where
  /-- Message "Operation Failed." (falsy DLL result). -/
  | opFailed
  /-- Message "Failed to open device %d." (negative handle from CH341OpenDevice). -/
  | openFailed
  /-- Message "EEPROM type is not specified." -/
  | eepromNotSpecified
  /-- Message "Length of buf1 and buf2 must be the same" (raised in `spi_swap`). -/
  | lengthMismatch
  /-- Python `ValueError` ("'buf' and 'length' shouldn't be both None."). -/
  | valueError
  deriving Repr, DecidableEq

/-- One call into the CH341 DLL (the transport), with its arguments. -/
inductive TCall where
  | openDevice (index : Int)
  | closeDevice (index : Int)
  | resetDevice (index : Int)
  /-- CH341SetStream with the combined configuration word. -/
  | setStream (index : Int) (cfg : Int)
  | setExclusive (index : Int) (exclusive : Bool)
  /-- CH341WriteData with the command bytes. -/
  | writeData (index : Int) (cmd : List Nat)
  /-- CH341WriteRead with the command bytes. -/
  | writeRead (index : Int) (cmd : List Nat)
  | readEEPROM (index : Int) (etype : Int) (addr len : Nat)
  | writeEEPROM (index : Int) (etype : Int) (addr : Nat) (data : List Nat)
  | streamSPI4 (index : Int) (cs : Int) (buf : List Nat)
  | streamSPI5 (index : Int) (cs : Int) (buf1 buf2 : List Nat)
  /-- CH341Set_D5_D0 with the full direction and output masks (c_uint8). -/
  | setD5D0 (index : Int) (rw out : Nat)
  | setIntRoutine (index : Int) (hasCallback : Bool)
  deriving Repr, DecidableEq

/-- Oracle for the DLL: what each DLL entry point returns.  `Bool` fields are
the truthiness of the DLL result; `Option` fields are `none` when the result
is falsy and otherwise carry the bytes the DLL wrote back. -/
structure Ch341Env where
  /-- CH341OpenDevice: the returned handle (negative on failure). -/
  openDevice : Int → Int
  resetOk : Int → Bool
  setExclusiveOk : Int → Bool → Bool
  setStreamOk : Int → Int → Bool
  writeDataOk : Int → List Nat → Bool
  /-- CH341WriteRead: the response bytes read back (its length is the
  reported read length). -/
  writeRead : Int → List Nat → Option (List Nat)
  readEEPROM : Int → Int → Nat → Nat → Option (List Nat)
  writeEEPROMOk : Int → Int → Nat → List Nat → Bool
  /-- CH341StreamSPI4: the bytes swapped into the buffer. -/
  streamSPI4 : Int → Int → List Nat → Option (List Nat)
  /-- CH341StreamSPI5: the bytes swapped into the two buffers. -/
  streamSPI5 : Int → Int → List Nat → List Nat → Option (List Nat × List Nat)
  setD5D0Ok : Int → Nat → Nat → Bool
  setIntRoutineOk : Int → Bool → Bool

-- Module-level constants of ch341.py.
def mCH341A_CMD_I2C_STREAM : Nat := 0xAA
def mCH341A_CMD_I2C_STM_STA : Nat := 0x74
def mCH341A_CMD_I2C_STM_STO : Nat := 0x75
def mCH341A_CMD_I2C_STM_OUT : Nat := 0x80
def mCH341A_CMD_I2C_STM_END : Nat := 0x00
def SPI_NOCS : Int := 0x00
def SPI_CS0 : Int := 0x80
def SPI_CS1 : Int := 0x81
def SPI_CS2 : Int := 0x82
def SPI_MSBFIRST : Int := 0x80
def SPI_LSBFIRST : Int := 0x00
def IO_READ : Nat := 0
def IO_WRITE : Nat := 1

/-- The mutable state of a `Ch341` instance (`__init__`).  `callback` records
whether `_callback` holds a bound routine (`c_void_p(0)` = `false`). -/
structure Ch341 where
  index : Int := 0
  handle : Option Int := none
  eeprom_type : Option Int := none
  i2c_speed : Int := 0
  spi_bit_order : Int := SPI_LSBFIRST
  io_rw : Nat := 0x00
  io_out : Nat := 0x00
  callback : Bool := false
  deriving Repr, DecidableEq

/-- Outcome of one method call: Python result (or exception), the state of
`self` afterwards, and the DLL calls issued, in order. -/
structure MRes (α : Type) where
  res : Except CH341Error α
  st : Ch341
  calls : List TCall
  deriving Repr

/-- Sequencing of method bodies: a raised exception aborts the rest; DLL-call
traces concatenate. -/
def MRes.bind {α β : Type} (r : MRes α) (f : α → Ch341 → MRes β) : MRes β :=
  match r.res with
  | .error err => ⟨.error err, r.st, r.calls⟩
  | .ok a =>
    let r2 := f a r.st
    ⟨r2.res, r2.st, r.calls ++ r2.calls⟩

-- ## Lifecycle and configuration

/-- Embeds `Ch341.reset`. -/
def reset (e : Ch341Env) (s : Ch341) : MRes Unit :=
  if e.resetOk s.index then ⟨.ok (), s, [.resetDevice s.index]⟩
  else ⟨.error .opFailed, s, [.resetDevice s.index]⟩

/-- Embeds `Ch341.set_exclusive`. -/
def set_exclusive (e : Ch341Env) (s : Ch341) (exclusive : Bool) : MRes Unit :=
  if e.setExclusiveOk s.index exclusive then ⟨.ok (), s, [.setExclusive s.index exclusive]⟩
  else ⟨.error .opFailed, s, [.setExclusive s.index exclusive]⟩

/-- Embeds `Ch341.open` (renamed: `open` is a Lean keyword).  Stores the handle,
raises on a negative handle, then resets, then applies exclusivity. -/
def open' (e : Ch341Env) (s : Ch341) (exclusive : Bool) : MRes Unit :=
  let h := e.openDevice s.index
  let s := { s with handle := some h }
  if h < 0 then ⟨.error .openFailed, s, [.openDevice s.index]⟩
  else
    (MRes.bind ⟨.ok (), s, [.openDevice s.index]⟩ fun _ s =>
      MRes.bind (reset e s) fun _ s =>
        set_exclusive e s exclusive)

/-- Embeds `Ch341._update_config`: pushes the single combined configuration word
`self._i2c_speed | self._spi_bit_order` via CH341SetStream. -/
def _update_config (e : Ch341Env) (s : Ch341) : MRes Unit :=
  let cfg := Int.lor s.i2c_speed s.spi_bit_order
  if e.setStreamOk s.index cfg then ⟨.ok (), s, [.setStream s.index cfg]⟩
  else ⟨.error .opFailed, s, [.setStream s.index cfg]⟩

/-- Embeds `Ch341.set_i2c_speed`: stores `max(0, min(3, speed))`, then pushes the
combined configuration. -/
def set_i2c_speed (e : Ch341Env) (s : Ch341) (speed : Int) : MRes Unit :=
  let s := { s with i2c_speed := max 0 (min 3 speed) }
  _update_config e s

/-- Embeds `Ch341.set_spi_bit_order`: stores the bit order, then pushes the combined
configuration. -/
def set_spi_bit_order (e : Ch341Env) (s : Ch341) (bit_order : Int) : MRes Unit :=
  let s := { s with spi_bit_order := bit_order }
  _update_config e s

-- ## GPIO state machine

/-- Embeds `Ch341._update_io_state`: pushes the whole 2-byte register
(CH341Set_D5_D0 with `c_uint8` of both masks) in one command. -/
def _update_io_state (e : Ch341Env) (s : Ch341) : MRes Unit :=
  let c : TCall := .setD5D0 s.index (s.io_rw % 256) (s.io_out % 256)
  if e.setD5D0Ok s.index (s.io_rw % 256) (s.io_out % 256) then ⟨.ok (), s, [c]⟩
  else ⟨.error .opFailed, s, [c]⟩

/-- Embeds `Ch341.update_io_state`: overwrites both masks, then pushes. -/
def update_io_state (e : Ch341Env) (s : Ch341) (io_rw io_out : Nat) : MRes Unit :=
  _update_io_state e { s with io_rw := io_rw, io_out := io_out }

/-- Embeds `Ch341.set_io_rw`:
`self._io_rw &= 0xFF ^ (1 << io); self._io_rw |= bool(rw) << io`, then push. -/
def set_io_rw (e : Ch341Env) (s : Ch341) (io : Nat) (rw : Nat) : MRes Unit :=
  let s := { s with io_rw := s.io_rw &&& (0xFF ^^^ (1 <<< io)) }
  let s := { s with io_rw := s.io_rw ||| ((if rw ≠ 0 then 1 else 0) <<< io) }
  _update_io_state e s

/-- Embeds `Ch341.io_write`:
`self._io_out &= 0xFF ^ (1 << io); self._io_out |= bool(level) << io`, then push. -/
def io_write (e : Ch341Env) (s : Ch341) (io : Nat) (level : Nat) : MRes Unit :=
  let s := { s with io_out := s.io_out &&& (0xFF ^^^ (1 <<< io)) }
  let s := { s with io_out := s.io_out ||| ((if level ≠ 0 then 1 else 0) <<< io) }
  _update_io_state e s

-- ## Interrupts and close

/-- Embeds `Ch341.interrupt_clear`: drops the stored callback, then registers the
null routine with the DLL. -/
def interrupt_clear (e : Ch341Env) (s : Ch341) : MRes Unit :=
  let s := { s with callback := false }
  if e.setIntRoutineOk s.index false then ⟨.ok (), s, [.setIntRoutine s.index false]⟩
  else ⟨.error .opFailed, s, [.setIntRoutine s.index false]⟩

/-- Embeds `Ch341.close`: interrupt_clear; update_io_state(0x00, 0x00); reset;
CH341CloseDevice (the DLL close result is not checked). -/
def close (e : Ch341Env) (s : Ch341) : MRes Unit :=
  MRes.bind (interrupt_clear e s) fun _ s =>
  MRes.bind (update_io_state e s 0x00 0x00) fun _ s =>
  MRes.bind (reset e s) fun _ s =>
  ⟨.ok (), s, [.closeDevice s.index]⟩

-- ## I2C protocol engine

/-- Embeds `Ch341._i2c_start_stop`: writes the 3-byte start (or stop) stream command. -/
def _i2c_start_stop (e : Ch341Env) (s : Ch341) (start : Nat) : MRes Unit :=
  let cmd : List Nat := [mCH341A_CMD_I2C_STREAM,
    if start ≠ 0 then mCH341A_CMD_I2C_STM_STA else mCH341A_CMD_I2C_STM_STO,
    mCH341A_CMD_I2C_STM_END]
  if e.writeDataOk s.index cmd then ⟨.ok (), s, [.writeData s.index cmd]⟩
  else ⟨.error .opFailed, s, [.writeData s.index cmd]⟩

/-- Decoding of the ACK status in of `_i2c_out_byte_check_ack`, where the high bit of the last
response byte set means NACK (`if buf[length-1] & 0x80: return False`). -/
def ackBit (resp : List Nat) : Bool :=
  ¬ (resp.getD (resp.length - 1) 0 &&& 0x80 ≠ 0)

/-- Embeds `Ch341._i2c_out_byte_check_ack`: sends the 4-byte OUT command via
CH341WriteRead, raises when the result or the read length is falsy, and
decodes ACK from the last status byte. -/
def _i2c_out_byte_check_ack (e : Ch341Env) (s : Ch341) (byte : Nat) : MRes Bool :=
  let cmd : List Nat := [mCH341A_CMD_I2C_STREAM, mCH341A_CMD_I2C_STM_OUT,
    byte % 256, mCH341A_CMD_I2C_STM_END]
  match e.writeRead s.index cmd with
  | none => ⟨.error .opFailed, s, [.writeRead s.index cmd]⟩
  | some resp =>
    if resp.length = 0 then ⟨.error .opFailed, s, [.writeRead s.index cmd]⟩
    else ⟨.ok (ackBit resp), s, [.writeRead s.index cmd]⟩

/-- The loop body of `Ch341.i2c_scan`, over the remaining addresses, with the
accumulated `out` list. -/
def i2c_scan_go (e : Ch341Env) (s : Ch341) (addrs : List Nat) (out : List Nat) :
    MRes (List Nat) :=
  match addrs with
  | [] => ⟨.ok out, s, []⟩
  | addr :: rest =>
    MRes.bind (_i2c_start_stop e s 1) fun _ s =>
    MRes.bind (_i2c_out_byte_check_ack e s (addr <<< 1)) fun ack s =>
    let out := if ack then out ++ [addr] else out
    MRes.bind (_i2c_start_stop e s 0) fun _ s =>
    i2c_scan_go e s rest out

/-- Embeds `Ch341.i2c_scan`: `for addr in range(127): start; check ack of addr<<1;
stop`, collecting ACKed addresses. -/
def i2c_scan (e : Ch341Env) (s : Ch341) : MRes (List Nat) :=
  i2c_scan_go e s (List.range 127) []

-- ## EEPROM

/-- Embeds `Ch341.set_eeprom_type` (the `TypeError` branch is unrepresentable here:
the argument is typed). -/
def set_eeprom_type (s : Ch341) (eeprom_type : Int) : Ch341 :=
  { s with eeprom_type := some eeprom_type }

/-- Outcome of `eeprom_read`: also records the final contents of the
caller-supplied buffer (`none` argument stays `none`). -/
structure EepromRes where
  res : Except CH341Error (List Nat)
  st : Ch341
  calls : List TCall
  buf : Option (List Nat)
  deriving Repr

/-- Embeds `Ch341.eeprom_read`: raises when no EEPROM type is set (before anything
else); raises `ValueError` when both `buf` and `length` are `None`; otherwise
reads `length` bytes into the buffer via CH341ReadEEPROM. -/
def eeprom_read (e : Ch341Env) (s : Ch341) (addr : Nat) (buf : Option (List Nat))
    (length : Option Nat) : EepromRes :=
  match s.eeprom_type with
  | none => ⟨.error .eepromNotSpecified, s, [], buf⟩
  | some et =>
    match buf, length with
    | none, none => ⟨.error .valueError, s, [], none⟩
    | _, _ =>
      let len := match length with
        | some l => l
        | none => (buf.getD []).length
      let c : TCall := .readEEPROM s.index et addr len
      match e.readEEPROM s.index et addr len with
      | some data => ⟨.ok data, s, [c], some data⟩
      | none => ⟨.error .opFailed, s, [c], buf⟩

/-- Embeds `Ch341.eeprom_write`: raises when no EEPROM type is set; otherwise writes
the buffer via CH341WriteEEPROM (the buffer is only read). -/
def eeprom_write (e : Ch341Env) (s : Ch341) (addr : Nat) (buf : List Nat) :
    MRes Unit :=
  match s.eeprom_type with
  | none => ⟨.error .eepromNotSpecified, s, []⟩
  | some et =>
    let c : TCall := .writeEEPROM s.index et addr buf
    if e.writeEEPROMOk s.index et addr buf then ⟨.ok (), s, [c]⟩
    else ⟨.error .opFailed, s, [c]⟩

-- ## SPI protocol engine

/-- Outcome of an SPI method: also records the final contents of the
caller-supplied buffers (mutated in place by `spi_swap`). -/
structure SpiRes where
  res : Except CH341Error Unit
  st : Ch341
  calls : List TCall
  buf1 : List Nat
  buf2 : Option (List Nat)
  deriving Repr

/-- Embeds `Ch341.spi_swap`: full-duplex swap in place.  With one buffer it calls
CH341StreamSPI4; with two it first raises unless the lengths match, then
calls CH341StreamSPI5.  The length check precedes any DLL call. -/
def spi_swap (e : Ch341Env) (s : Ch341) (buf1 : List Nat)
    (buf2 : Option (List Nat)) (cs : Int) : SpiRes :=
  match buf2 with
  | none =>
    let c : TCall := .streamSPI4 s.index cs buf1
    match e.streamSPI4 s.index cs buf1 with
    | some new1 => ⟨.ok (), s, [c], new1, none⟩
    | none => ⟨.error .opFailed, s, [c], buf1, none⟩
  | some b2 =>
    if buf1.length ≠ b2.length then ⟨.error .lengthMismatch, s, [], buf1, some b2⟩
    else
      let c : TCall := .streamSPI5 s.index cs buf1 b2
      match e.streamSPI5 s.index cs buf1 b2 with
      | some (new1, new2) => ⟨.ok (), s, [c], new1, some new2⟩
      | none => ⟨.error .opFailed, s, [c], buf1, some b2⟩

/-- Embeds `Ch341.spi_write`: copies both buffers (`buf1.copy()`, `buf2.copy()`),
swaps the copies, and discards them — the caller's buffers keep their
original contents. -/
def spi_write (e : Ch341Env) (s : Ch341) (buf1 : List Nat)
    (buf2 : Option (List Nat)) (cs : Int) : SpiRes :=
  let r := spi_swap e s buf1 buf2 cs
  ⟨r.res, r.st, r.calls, buf1, buf2⟩

/-- Embeds `Ch341.spi_init`: drives SCK (IO3) low, DOUT0 (IO5) low, then — by the
source's own comment intending DOUT1/IO4 — repeats IO5 a second time, sets
each written pin to output, and finally drives the selected chip-select pin
high as output. -/
def spi_init (e : Ch341Env) (s : Ch341) (cs : Int) : MRes Unit :=
  MRes.bind (io_write e s 3 0) fun _ s =>     -- set sck to default low
  MRes.bind (set_io_rw e s 3 1) fun _ s =>
  MRes.bind (io_write e s 5 0) fun _ s =>     -- set dout0 to default low
  MRes.bind (set_io_rw e s 5 1) fun _ s =>
  MRes.bind (io_write e s 5 0) fun _ s =>     -- "set dout1 to default low" (source writes io 5 again)
  MRes.bind (set_io_rw e s 5 1) fun _ s =>
  if cs = SPI_CS0 then
    MRes.bind (io_write e s 0 1) fun _ s => set_io_rw e s 0 1
  else if cs = SPI_CS1 then
    MRes.bind (io_write e s 1 1) fun _ s => set_io_rw e s 1 1
  else if cs = SPI_CS2 then
    MRes.bind (io_write e s 2 1) fun _ s => set_io_rw e s 2 1
  else ⟨.ok (), s, []⟩

-- ## Concrete environments and states used by witnesses

/-- A fresh handle, as built by `Ch341(0)`. -/
def st0 : Ch341 := {}

/-- An environment in which every DLL call succeeds; `CH341WriteRead`
answers one status byte `0x00` (ACK). -/
def envOK : Ch341Env where
  openDevice := fun _ => 0
  resetOk := fun _ => true
  setExclusiveOk := fun _ _ => true
  setStreamOk := fun _ _ => true
  writeDataOk := fun _ _ => true
  writeRead := fun _ _ => some [0x00]
  readEEPROM := fun _ _ _ len => some (List.replicate len 0)
  writeEEPROMOk := fun _ _ _ _ => true
  streamSPI4 := fun _ _ buf => some buf
  streamSPI5 := fun _ _ b1 b2 => some (b1, b2)
  setD5D0Ok := fun _ _ _ => true
  setIntRoutineOk := fun _ _ => true

/-- Like `envOK`, but CH341OpenDevice reports failure (handle −1). -/
def envOpenFail : Ch341Env := { envOK with openDevice := fun _ => -1 }

/-- Like `envOK`, but the SPI engine swaps `0x37` into every byte — a
loopback-style transport that visibly overwrites buffers. -/
def envSpiOverwrite : Ch341Env :=
  { envOK with
    streamSPI4 := fun _ _ buf => some (buf.map fun _ => 0x37)
    streamSPI5 := fun _ _ b1 b2 => some (b1.map fun _ => 0x37, b2.map fun _ => 0x37) }

-- ## Helper lemmas (shared)

lemma _update_io_state_st (e : Ch341Env) (s : Ch341) : (_update_io_state e s).st = s := by
  unfold _update_io_state
  split <;> rfl

lemma _update_io_state_calls (e : Ch341Env) (s : Ch341) :
    (_update_io_state e s).calls = [.setD5D0 s.index (s.io_rw % 256) (s.io_out % 256)] := by
  unfold _update_io_state
  split <;> rfl

lemma _update_config_st (e : Ch341Env) (s : Ch341) : (_update_config e s).st = s := by
  unfold _update_config
  dsimp only
  split <;> rfl

lemma _update_config_calls (e : Ch341Env) (s : Ch341) :
    (_update_config e s).calls = [.setStream s.index (Int.lor s.i2c_speed s.spi_bit_order)] := by
  unfold _update_config
  dsimp only
  split <;> rfl

-- ## Claims

/-- C3: every call to `set_i2c_speed` and every call to `set_spi_bit_order`
pushes exactly one CH341SetStream command whose word is the bitwise OR of the
stored I2C speed class and the stored SPI bit-order bit — neither setter ever
sends a configuration word that omits the other subsystem's current setting. -/
theorem setters_push_combined_config (e : Ch341Env) (s : Ch341) (speed bit_order : Int) :
    (set_i2c_speed e s speed).calls
      = [.setStream s.index (Int.lor (set_i2c_speed e s speed).st.i2c_speed s.spi_bit_order)] ∧
    (set_i2c_speed e s speed).st.i2c_speed = max 0 (min 3 speed) ∧
    (set_i2c_speed e s speed).st.spi_bit_order = s.spi_bit_order ∧
    (set_spi_bit_order e s bit_order).calls
      = [.setStream s.index (Int.lor s.i2c_speed (set_spi_bit_order e s bit_order).st.spi_bit_order)] ∧
    (set_spi_bit_order e s bit_order).st.spi_bit_order = bit_order ∧
    (set_spi_bit_order e s bit_order).st.i2c_speed = s.i2c_speed := by
  unfold set_i2c_speed set_spi_bit_order
  rw [_update_config_calls, _update_config_calls, _update_config_st, _update_config_st]
  exact ⟨rfl, rfl, rfl, rfl, rfl, rfl⟩

/-- C4: `spi_swap` with two buffers of unequal length raises
`lengthMismatch` before issuing any transport call; the handle state and
both buffers keep their prior contents. -/
theorem spi_swap_length_mismatch (e : Ch341Env) (s : Ch341) (b1 b2 : List Nat) (cs : Int)
    (h : b1.length ≠ b2.length) :
    spi_swap e s b1 (some b2) cs
      = ⟨.error .lengthMismatch, s, [], b1, some b2⟩ := by
  unfold spi_swap
  dsimp only
  rw [if_pos h]

/-- Closed instance of `spi_swap_length_mismatch` at buffers of length 4 and 5. -/
theorem spi_swap_length_mismatch_witness :
    spi_swap envOK st0 [1, 2, 3, 4] (some [5, 6, 7, 8, 9]) SPI_NOCS
      = ⟨.error .lengthMismatch, st0, [], [1, 2, 3, 4], some [5, 6, 7, 8, 9]⟩ :=
  spi_swap_length_mismatch envOK st0 [1, 2, 3, 4] [5, 6, 7, 8, 9] SPI_NOCS (by decide)

/-- C5: `set_i2c_speed` stores the speed clamped to `[0, 3]` — negative
arguments store `0`, arguments above `3` store `3`, in-range arguments are
stored unchanged — and (provided the transport accepts the pushed
configuration) the call returns without raising, for every integer argument. -/
theorem set_i2c_speed_clamps (e : Ch341Env) (s : Ch341) (speed : Int) :
    (set_i2c_speed e s speed).st.i2c_speed = max 0 (min 3 speed) ∧
    (speed < 0 → (set_i2c_speed e s speed).st.i2c_speed = 0) ∧
    (3 < speed → (set_i2c_speed e s speed).st.i2c_speed = 3) ∧
    (0 ≤ speed → speed ≤ 3 → (set_i2c_speed e s speed).st.i2c_speed = speed) ∧
    (e.setStreamOk s.index (Int.lor (max 0 (min 3 speed)) s.spi_bit_order) = true →
      (set_i2c_speed e s speed).res = .ok ()) := by
  unfold set_i2c_speed _update_config
  dsimp only
  refine ⟨?_, ?_, ?_, ?_, ?_⟩
  · split <;> rfl
  · intro h
    have : max 0 (min 3 speed) = 0 := by omega
    split <;> simp [this]
  · intro h
    have : max 0 (min 3 speed) = 3 := by omega
    split <;> simp [this]
  · intro h1 h2
    have : max 0 (min 3 speed) = speed := by omega
    split <;> simp [this]
  · intro hok
    split
    · rfl
    · next hcond => exact absurd hok hcond

/-- Closed instance of `set_i2c_speed_clamps`: −5 stores 0, 99 stores 3,
2 stores 2, and the −5 call returns without raising. -/
theorem set_i2c_speed_clamps_witness :
    (set_i2c_speed envOK st0 (-5)).st.i2c_speed = 0 ∧
    (set_i2c_speed envOK st0 99).st.i2c_speed = 3 ∧
    (set_i2c_speed envOK st0 2).st.i2c_speed = 2 ∧
    (set_i2c_speed envOK st0 (-5)).res = .ok () :=
  ⟨(set_i2c_speed_clamps envOK st0 (-5)).2.1 (by decide),
   (set_i2c_speed_clamps envOK st0 99).2.2.1 (by decide),
   (set_i2c_speed_clamps envOK st0 2).2.2.2.1 (by decide) (by decide),
   (set_i2c_speed_clamps envOK st0 (-5)).2.2.2.2 rfl⟩

/-- C10: `spi_write` copies its argument buffers and swaps the copies, so the
caller's buffers hold exactly their prior bytes after the call — while
`spi_swap` itself does overwrite its buffer in place (shown on a transport
that swaps `0x37` into every byte). -/
theorem spi_write_preserves_buffers (e : Ch341Env) (s : Ch341) (b1 : List Nat)
    (b2 : Option (List Nat)) (cs : Int) :
    (spi_write e s b1 b2 cs).buf1 = b1 ∧
    (spi_write e s b1 b2 cs).buf2 = b2 ∧
    (spi_swap envSpiOverwrite st0 [0x01, 0x02] none SPI_NOCS).buf1 = [0x37, 0x37] ∧
    (spi_write envSpiOverwrite st0 [0x01, 0x02] none SPI_NOCS).buf1 = [0x01, 0x02] := by
  refine ⟨rfl, rfl, by decide, rfl⟩

/-- C8: with no EEPROM profile set, `eeprom_read` and `eeprom_write` raise the
configuration error before issuing any transport call, leaving the supplied
buffer and the handle state unchanged; after `set_eeprom_type` the same calls
issue their transport command. -/
theorem eeprom_requires_profile (e : Ch341Env) (s : Ch341) (addr : Nat)
    (b : List Nat) (hs : s.eeprom_type = none) :
    eeprom_read e s addr (some b) none
      = ⟨.error .eepromNotSpecified, s, [], some b⟩ ∧
    eeprom_write e s addr b = ⟨.error .eepromNotSpecified, s, []⟩ ∧
    (∀ et, (eeprom_read e (set_eeprom_type s et) addr (some b) none).calls
      = [.readEEPROM s.index et addr b.length]) ∧
    (∀ et, (eeprom_write e (set_eeprom_type s et) addr b).calls
      = [.writeEEPROM s.index et addr b]) := by
  refine ⟨?_, ?_, ?_, ?_⟩
  · unfold eeprom_read
    rw [hs]
  · unfold eeprom_write
    rw [hs]
  · intro et
    unfold eeprom_read set_eeprom_type
    dsimp only [Option.getD_some]
    cases hr : e.readEEPROM s.index et addr b.length <;> rfl
  · intro et
    unfold eeprom_write set_eeprom_type
    dsimp only
    split <;> rfl

/-- Closed instance of `eeprom_requires_profile` on a fresh handle. -/
theorem eeprom_requires_profile_witness :
    eeprom_read envOK st0 5 (some [1, 2, 3]) none
      = ⟨.error .eepromNotSpecified, st0, [], some [1, 2, 3]⟩ ∧
    eeprom_write envOK st0 5 [1, 2, 3] = ⟨.error .eepromNotSpecified, st0, []⟩ ∧
    (eeprom_read envOK (set_eeprom_type st0 1) 5 (some [1, 2, 3]) none).calls
      = [.readEEPROM 0 1 5 3] :=
  ⟨(eeprom_requires_profile envOK st0 5 [1, 2, 3] rfl).1,
   (eeprom_requires_profile envOK st0 5 [1, 2, 3] rfl).2.1,
   (eeprom_requires_profile envOK st0 5 [1, 2, 3] rfl).2.2.1 1⟩

/-- C9: `open'` raises whenever the transport returns a negative handle (and
has issued only the open call); with a non-negative handle it resets the
device and only then applies the exclusivity setting, succeeding when both
transport calls succeed. -/
theorem open_checks_handle_then_resets (e : Ch341Env) (s : Ch341) (excl : Bool) :
    (e.openDevice s.index < 0 →
      (open' e s excl).res = .error .openFailed ∧
      (open' e s excl).calls = [.openDevice s.index]) ∧
    (0 ≤ e.openDevice s.index →
      (open' e s excl).calls
        = [.openDevice s.index, .resetDevice s.index]
          ++ (if e.resetOk s.index then [.setExclusive s.index excl] else []) ∧
      (e.resetOk s.index = true → e.setExclusiveOk s.index excl = true →
        (open' e s excl).res = .ok ())) := by
  constructor
  · intro hneg
    unfold open'
    dsimp only
    rw [if_pos hneg]
    exact ⟨rfl, rfl⟩
  · intro hpos
    unfold open' reset set_exclusive MRes.bind
    dsimp only
    rw [if_neg (by omega)]
    constructor
    · cases hr : e.resetOk s.index
      · simp [hr]
      · cases he : e.setExclusiveOk s.index excl <;> simp [hr, he]
    · intro hr he
      simp [hr, he]

/-- Closed instance of `open_checks_handle_then_resets`: a failing transport
open (handle −1) raises; a successful one resets before setting exclusivity. -/
theorem open_checks_handle_then_resets_witness :
    (open' envOpenFail st0 true).res = .error .openFailed ∧
    (open' envOpenFail st0 true).calls = [.openDevice 0] ∧
    (open' envOK st0 true).calls
      = [.openDevice 0, .resetDevice 0, .setExclusive 0 true] ∧
    (open' envOK st0 true).res = .ok () :=
  ⟨((open_checks_handle_then_resets envOpenFail st0 true).1 (by decide)).1,
   ((open_checks_handle_then_resets envOpenFail st0 true).1 (by decide)).2,
   (((open_checks_handle_then_resets envOK st0 true).2 (by decide)).1).trans (by decide),
   ((open_checks_handle_then_resets envOK st0 true).2 (by decide)).2 rfl rfl⟩

/-- C7: `close` issues, in order, the interrupt-callback clear, one GPIO push
with direction `0x00` and output `0x00`, the device reset, and the handle
release; it succeeds (for any prior state, in particular one that never
registered a callback) whenever those transport calls succeed, and leaves the
cached callback cleared and both GPIO masks zero. -/
theorem close_teardown (e : Ch341Env) (s : Ch341)
    (h1 : e.setIntRoutineOk s.index false = true)
    (h2 : e.setD5D0Ok s.index 0 0 = true)
    (h3 : e.resetOk s.index = true) :
    (close e s).res = .ok () ∧
    (close e s).calls = [.setIntRoutine s.index false, .setD5D0 s.index 0 0,
      .resetDevice s.index, .closeDevice s.index] ∧
    (close e s).st.callback = false ∧
    (close e s).st.io_rw = 0 ∧
    (close e s).st.io_out = 0 := by
  unfold close interrupt_clear update_io_state _update_io_state reset MRes.bind
  simp [h1, h2, h3]

/-- Closed instance of `close_teardown` on a fresh handle (which never
registered an interrupt callback). -/
theorem close_teardown_witness :
    (close envOK st0).res = .ok () ∧
    (close envOK st0).calls
      = [.setIntRoutine 0 false, .setD5D0 0 0 0, .resetDevice 0, .closeDevice 0] ∧
    (close envOK st0).st.callback = false :=
  ⟨(close_teardown envOK st0 rfl rfl rfl).1,
   ((close_teardown envOK st0 rfl rfl rfl).2.1).trans (by decide),
   (close_teardown envOK st0 rfl rfl rfl).2.2.1⟩

-- ## GPIO bit-level helpers

lemma ioUpdate_testBit (x io v j : Nat) (hio : io < 8) (hx : x < 256) :
    ((x &&& (0xFF ^^^ (1 <<< io))) ||| ((if v ≠ 0 then 1 else 0) <<< io)).testBit j
      = if j = io then decide (v ≠ 0) else x.testBit j := by
  have hone : (1 : Nat) <<< io = 2 ^ io := Nat.one_shiftLeft io
  have hmask : ((0xFF : Nat) ^^^ (1 <<< io)).testBit j
      = (decide (j < 8) ^^ decide (io = j)) := by
    rw [Nat.testBit_xor, hone, Nat.testBit_two_pow]
    have h255 : (0xFF : Nat) = 2 ^ 8 - 1 := by norm_num
    rw [h255, Nat.testBit_two_pow_sub_one]
  have hbit : (((if v ≠ 0 then 1 else 0) : Nat) <<< io).testBit j
      = (decide (v ≠ 0) && decide (io = j)) := by
    by_cases hv : v ≠ 0
    · rw [if_pos hv, hone, Nat.testBit_two_pow]
      simp [hv]
    · rw [if_neg hv, Nat.zero_shiftLeft, Nat.zero_testBit]
      simp [hv]
  rw [Nat.testBit_or, Nat.testBit_and, hmask, hbit]
  rcases eq_or_ne j io with hj | hj
  · subst hj
    simp [hio]
  · have hij : io ≠ j := Ne.symm hj
    rw [if_neg hj]
    by_cases hj8 : j < 8
    · simp [hij, hj8]
    · have h8 : x.testBit j = false := by
        apply Nat.testBit_lt_two_pow
        calc x < 256 := hx
          _ = 2 ^ 8 := by norm_num
          _ ≤ 2 ^ j := Nat.pow_le_pow_right (by norm_num) (Nat.le_of_not_lt hj8)
      simp [hij, hj8, h8]

lemma ioUpdate_lt (x io v : Nat) (hio : io < 8) (hx : x < 256) :
    ((x &&& (0xFF ^^^ (1 <<< io))) ||| ((if v ≠ 0 then 1 else 0) <<< io)) < 256 := by
  have h : (256 : Nat) = 2 ^ 8 := by norm_num
  rw [h]
  apply Nat.lt_pow_two_of_testBit
  intro i hi
  rw [ioUpdate_testBit x io v i hio hx, if_neg (by omega)]
  exact Nat.testBit_lt_two_pow
    (lt_of_lt_of_le (h ▸ hx) (Nat.pow_le_pow_right (by norm_num) hi))

lemma set_io_rw_eq (e : Ch341Env) (s : Ch341) (io rw : Nat) :
    set_io_rw e s io rw
      = _update_io_state e { s with
          io_rw := (s.io_rw &&& (0xFF ^^^ (1 <<< io))) ||| ((if rw ≠ 0 then 1 else 0) <<< io) } :=
  rfl

lemma io_write_eq (e : Ch341Env) (s : Ch341) (io level : Nat) :
    io_write e s io level
      = _update_io_state e { s with
          io_out := (s.io_out &&& (0xFF ^^^ (1 <<< io))) ||| ((if level ≠ 0 then 1 else 0) <<< io) } :=
  rfl

/-- C6: on any 8-bit register state and pin index below 8, `set_io_rw`
changes exactly bit `io` of the direction mask (to the truthiness of `rw`),
leaves every other direction bit and the whole output mask unchanged, and
pushes the entire updated {direction, output} pair in one CH341Set_D5_D0
command; `io_write` does the same for the output mask. -/
theorem gpio_single_bit_update (e : Ch341Env) (s : Ch341) (io rw level : Nat)
    (hio : io < 8) (hrw : s.io_rw < 256) (hout : s.io_out < 256) :
    ((set_io_rw e s io rw).st.io_rw.testBit io = decide (rw ≠ 0) ∧
     (∀ j, j ≠ io → (set_io_rw e s io rw).st.io_rw.testBit j = s.io_rw.testBit j) ∧
     (set_io_rw e s io rw).st.io_out = s.io_out ∧
     (set_io_rw e s io rw).st.io_rw < 256 ∧
     (set_io_rw e s io rw).calls
       = [.setD5D0 s.index (set_io_rw e s io rw).st.io_rw s.io_out]) ∧
    ((io_write e s io level).st.io_out.testBit io = decide (level ≠ 0) ∧
     (∀ j, j ≠ io → (io_write e s io level).st.io_out.testBit j = s.io_out.testBit j) ∧
     (io_write e s io level).st.io_rw = s.io_rw ∧
     (io_write e s io level).st.io_out < 256 ∧
     (io_write e s io level).calls
       = [.setD5D0 s.index s.io_rw (io_write e s io level).st.io_out]) := by
  have hrw' := ioUpdate_lt s.io_rw io rw hio hrw
  have hout' := ioUpdate_lt s.io_out io level hio hout
  rw [set_io_rw_eq, io_write_eq, _update_io_state_st, _update_io_state_st,
    _update_io_state_calls, _update_io_state_calls]
  dsimp only
  refine ⟨⟨?_, ?_, rfl, hrw', ?_⟩, ?_, ?_, rfl, hout', ?_⟩
  · rw [ioUpdate_testBit s.io_rw io rw io hio hrw, if_pos rfl]
  · intro j hj
    rw [ioUpdate_testBit s.io_rw io rw j hio hrw, if_neg hj]
  · rw [Nat.mod_eq_of_lt hrw', Nat.mod_eq_of_lt hout]
  · rw [ioUpdate_testBit s.io_out io level io hio hout, if_pos rfl]
  · intro j hj
    rw [ioUpdate_testBit s.io_out io level j hio hout, if_neg hj]
  · rw [Nat.mod_eq_of_lt hrw, Nat.mod_eq_of_lt hout']

/-- Closed instance of `gpio_single_bit_update` at pin 3 on a fresh handle. -/
theorem gpio_single_bit_update_witness :
    (set_io_rw envOK st0 3 1).st.io_rw.testBit 3 = true ∧
    (set_io_rw envOK st0 3 1).st.io_rw.testBit 0 = st0.io_rw.testBit 0 ∧
    (set_io_rw envOK st0 3 1).st.io_out = st0.io_out ∧
    (io_write envOK st0 3 1).st.io_out.testBit 3 = true ∧
    (io_write envOK st0 3 1).calls
      = [.setD5D0 st0.index st0.io_rw (io_write envOK st0 3 1).st.io_out] :=
  ⟨((gpio_single_bit_update envOK st0 3 1 1 (by decide) (by decide) (by decide)).1.1).trans
      (by decide),
   (gpio_single_bit_update envOK st0 3 1 1 (by decide) (by decide) (by decide)).1.2.1 0
      (by decide),
   (gpio_single_bit_update envOK st0 3 1 1 (by decide) (by decide) (by decide)).1.2.2.1,
   ((gpio_single_bit_update envOK st0 3 1 1 (by decide) (by decide) (by decide)).2.1).trans
      (by decide),
   (gpio_single_bit_update envOK st0 3 1 1 (by decide) (by decide) (by decide)).2.2.2.2.2⟩

/-- C2 (code bug): on a fresh handle with every transport call succeeding,
`spi_init SPI_CS0` drives SCK (IO3) and DOUT0 (IO5) low as outputs and CS0
(IO0) high as output, but never configures IO4 (DOUT1): the source writes IO5
twice where its own inline comment and docstring intend DOUT1 = IO4, so the
final direction mask is 0x29 with bit 4 still clear (IO4 left an input, never
driven), and no pushed register ever differs in bit 4 from the initial state. -/
theorem spi_init_skips_io4 :
    (spi_init envOK st0 SPI_CS0).res = .ok () ∧
    (spi_init envOK st0 SPI_CS0).st.io_rw = 0x29 ∧
    (spi_init envOK st0 SPI_CS0).st.io_rw.testBit 4 = false ∧
    (spi_init envOK st0 SPI_CS0).st.io_rw.testBit 3 = true ∧
    (spi_init envOK st0 SPI_CS0).st.io_rw.testBit 5 = true ∧
    (spi_init envOK st0 SPI_CS0).st.io_rw.testBit 0 = true ∧
    (spi_init envOK st0 SPI_CS0).st.io_out = 0x01 ∧
    (spi_init envOK st0 SPI_CS0).calls
      = [.setD5D0 0 0x00 0x00, .setD5D0 0 0x08 0x00, .setD5D0 0 0x08 0x00,
         .setD5D0 0 0x28 0x00, .setD5D0 0 0x28 0x00, .setD5D0 0 0x28 0x00,
         .setD5D0 0 0x28 0x01, .setD5D0 0 0x29 0x01] :=
  ⟨rfl, rfl, rfl, rfl, rfl, rfl, rfl, rfl⟩

-- ## I2C scan: command shapes and scan specification

/-- Start command bytes written by `_i2c_start_stop` with `start = 1`. -/
def staCmd : List Nat :=
  [mCH341A_CMD_I2C_STREAM, mCH341A_CMD_I2C_STM_STA, mCH341A_CMD_I2C_STM_END]

/-- Stop command bytes written by `_i2c_start_stop` with `start = 0`. -/
def stoCmd : List Nat :=
  [mCH341A_CMD_I2C_STREAM, mCH341A_CMD_I2C_STM_STO, mCH341A_CMD_I2C_STM_END]

/-- OUT command `_i2c_out_byte_check_ack` sends when scanning address `a`:
the address byte is `a << 1` (write bit 0). -/
def outCmd (a : Nat) : List Nat :=
  [mCH341A_CMD_I2C_STREAM, mCH341A_CMD_I2C_STM_OUT, (a <<< 1) % 256,
   mCH341A_CMD_I2C_STM_END]

/-- Transport success at address `a` during a scan: both stream writes
succeed and the OUT command gets a non-empty response. -/
def scanOk (e : Ch341Env) (idx : Int) (a : Nat) : Prop :=
  e.writeDataOk idx staCmd = true ∧ e.writeDataOk idx stoCmd = true ∧
  (e.writeRead idx (outCmd a)).getD [] ≠ []

instance (e : Ch341Env) (idx : Int) (a : Nat) : Decidable (scanOk e idx a) := by
  unfold scanOk
  infer_instance

/-- Outcome of the ACK check at address `a`: ACK iff the high bit of the
last status byte is clear. -/
def ackOf (e : Ch341Env) (idx : Int) (a : Nat) : Bool :=
  ackBit ((e.writeRead idx (outCmd a)).getD [])

/-- The three transport calls one scanned address produces: start, address
byte out, stop — issued regardless of the ACK outcome. -/
def addrCalls (idx : Int) (a : Nat) : List TCall :=
  [.writeData idx staCmd, .writeRead idx (outCmd a), .writeData idx stoCmd]

lemma _i2c_start_stop_sta (e : Ch341Env) (s : Ch341)
    (h : e.writeDataOk s.index staCmd = true) :
    _i2c_start_stop e s 1 = ⟨.ok (), s, [.writeData s.index staCmd]⟩ := by
  unfold _i2c_start_stop
  have hc : [mCH341A_CMD_I2C_STREAM,
      if (1 : Nat) ≠ 0 then mCH341A_CMD_I2C_STM_STA else mCH341A_CMD_I2C_STM_STO,
      mCH341A_CMD_I2C_STM_END] = staCmd := by
    rw [if_pos (by decide)]
    rfl
  dsimp only
  rw [hc, h]
  rfl

lemma _i2c_start_stop_sto (e : Ch341Env) (s : Ch341)
    (h : e.writeDataOk s.index stoCmd = true) :
    _i2c_start_stop e s 0 = ⟨.ok (), s, [.writeData s.index stoCmd]⟩ := by
  unfold _i2c_start_stop
  have hc : [mCH341A_CMD_I2C_STREAM,
      if (0 : Nat) ≠ 0 then mCH341A_CMD_I2C_STM_STA else mCH341A_CMD_I2C_STM_STO,
      mCH341A_CMD_I2C_STM_END] = stoCmd := by
    rw [if_neg (by decide)]
    rfl
  dsimp only
  rw [hc, h]
  rfl

lemma check_ack_eval (e : Ch341Env) (s : Ch341) (a : Nat)
    (h : (e.writeRead s.index (outCmd a)).getD [] ≠ []) :
    _i2c_out_byte_check_ack e s (a <<< 1)
      = ⟨.ok (ackOf e s.index a), s, [.writeRead s.index (outCmd a)]⟩ := by
  unfold _i2c_out_byte_check_ack ackOf
  have hc : [mCH341A_CMD_I2C_STREAM, mCH341A_CMD_I2C_STM_OUT, (a <<< 1) % 256,
      mCH341A_CMD_I2C_STM_END] = outCmd a := rfl
  dsimp only
  rw [hc]
  cases hw : e.writeRead s.index (outCmd a) with
  | none =>
    rw [hw] at h
    simp at h
  | some resp =>
    rw [hw] at h
    simp only [Option.getD_some] at h
    dsimp only
    rw [if_neg (fun hh => h (List.length_eq_zero.mp hh))]
    rfl

lemma i2c_scan_go_spec (e : Ch341Env) (s : Ch341) (addrs : List Nat) :
    ∀ out : List Nat, (∀ a ∈ addrs, scanOk e s.index a) →
    i2c_scan_go e s addrs out
      = ⟨.ok (out ++ addrs.filter (fun a => ackOf e s.index a)), s,
         addrs.flatMap (addrCalls s.index)⟩ := by
  induction addrs with
  | nil =>
    intro out _
    simp [i2c_scan_go]
  | cons a rest ih =>
    intro out h
    obtain ⟨h1, h2, h3⟩ := h a (List.mem_cons_self a rest)
    have hrest : ∀ b ∈ rest, scanOk e s.index b :=
      fun b hb => h b (List.mem_cons_of_mem a hb)
    simp only [i2c_scan_go]
    rw [_i2c_start_stop_sta e s h1]
    dsimp only [MRes.bind]
    rw [check_ack_eval e s a h3]
    dsimp only
    rw [_i2c_start_stop_sto e s h2]
    dsimp only
    rw [ih _ hrest]
    cases hp : ackOf e s.index a <;>
      simp [hp, addrCalls, List.filter_cons, List.flatMap_cons, List.append_assoc]

/-- C1: under a transport that answers every scanned address, `i2c_scan`
returns exactly the addresses `a < 127` whose ACK check (on address byte
`a << 1`) reports ACK — high bit of the last status byte clear — visiting
addresses in ascending order; each of the 127 addresses contributes a full
start / address-out / stop call triple to the transport regardless of its
ACK outcome, and the returned list is ascending. -/
theorem i2c_scan_correct (e : Ch341Env) (s : Ch341)
    (h : ∀ a, a < 127 → scanOk e s.index a) :
    i2c_scan e s
      = ⟨.ok ((List.range 127).filter (fun a => ackOf e s.index a)), s,
         (List.range 127).flatMap (addrCalls s.index)⟩ ∧
    (∀ a, a ∈ (List.range 127).filter (fun a => ackOf e s.index a) ↔
      (a ≤ 126 ∧ ackOf e s.index a = true)) ∧
    List.Sorted (· < ·) ((List.range 127).filter (fun a => ackOf e s.index a)) := by
  refine ⟨?_, ?_, ?_⟩
  · have h0 : ∀ a ∈ List.range 127, scanOk e s.index a :=
      fun a ha => h a (List.mem_range.mp ha)
    unfold i2c_scan
    rw [i2c_scan_go_spec e s (List.range 127) [] h0]
    simp
  · intro a
    simp only [List.mem_filter, List.mem_range]
    constructor
    · rintro ⟨ha, hb⟩
      exact ⟨by omega, hb⟩
    · rintro ⟨ha, hb⟩
      exact ⟨by omega, hb⟩
  · exact List.Sorted.filter (fun a => ackOf e s.index a) (List.sorted_lt_range 127)

/-- Closed instance of `i2c_scan_correct` on an all-ACK transport. -/
theorem i2c_scan_correct_witness :
    i2c_scan envOK st0
      = ⟨.ok ((List.range 127).filter (fun a => ackOf envOK st0.index a)), st0,
         (List.range 127).flatMap (addrCalls st0.index)⟩ :=
  (i2c_scan_correct envOK st0 (by decide)).1
